import Mathlib

/-!
Shallow embedding of the social-media downloader service (src/api/main.py)
and proofs about its platform detection, handler dispatch, response shapes,
error mapping, and rate-limiting behaviour.

Strings model Python `str`; the regex patterns in PLATFORM_PATTERNS are pure
alternations of escaped literals, so `pattern.search(domain)` is substring
containment of one of the literals.  `urlparse(url).netloc` is modelled for
http(s)-style URLs (the only ones pydantic's HttpUrl admits): the text
between the first "://" and the next "/", "?" or "#".
-/

namespace SMD

/-- `startsWithSeg s pat`: `pat` is an initial segment of `s` (character lists). -/
def startsWithSeg : List Char → List Char → Bool
  | _, [] => true
  | [], _ :: _ => false
  | c :: cs, d :: ds => (c = d) && startsWithSeg cs ds

/-- `hasSeg s pat`: `pat` occurs contiguously inside `s`.  Models both Python
`"x" in url` and `re.search` of an alternation of escaped literals. -/
def hasSeg : List Char → List Char → Bool
  | [], pat => pat.isEmpty
  | c :: cs, pat => startsWithSeg (c :: cs) pat || hasSeg cs pat

/-- Substring containment on strings: `containsSubstr s pat` iff `pat` occurs in `s`. -/
def containsSubstr (s pat : String) : Bool :=
  hasSeg s.data pat.data

/-- Scan for the first "://" and return what follows it (the authority and the rest).
Models the scheme/netloc split `urlparse` performs on an http(s) URL. -/
def afterSchemeSep : List Char → Option (List Char)
  | [] => none
  | ':' :: '/' :: '/' :: rest => some rest
  | _ :: rest => afterSchemeSep rest

/-- Take characters up to the first "/", "?" or "#": the netloc terminators. -/
def netlocChars : List Char → List Char
  | [] => []
  | c :: cs => if c = '/' || c = '?' || c = '#' then [] else c :: netlocChars cs

/-- `urlparse(url).netloc` for http(s)-style URLs (src/api/main.py lines 149-150). -/
def netloc (url : String) : String :=
  match afterSchemeSep url.data with
  | some rest => String.mk (netlocChars rest)
  | none => ""

/-- PLATFORM_PATTERNS (src/api/main.py lines 47-52): an insertion-ordered dict
from platform name to the literal alternatives of its compiled regex. -/
def PLATFORM_PATTERNS : List (String × List String) :=
  [("instagram", ["instagram.com", "instagr.am"]),
   ("tiktok", ["tiktok.com", "vm.tiktok.com"]),
   ("facebook", ["facebook.com", "fb.com", "fb.watch"]),
   ("youtube", ["youtube.com", "youtu.be"])]

/-- `pattern.search(domain)` for one platform's pattern: some literal alternative
occurs in the domain. -/
def hostMatches (pats : List String) (domain : String) : Bool :=
  pats.any fun lit => containsSubstr domain lit

/-- detect_platform generalized over the pattern table, to reason about the
iteration order of the dict: first matching entry wins. -/
def detect_platform_with (table : List (String × List String)) (url : String) : Option String :=
  (table.find? fun pr => hostMatches pr.2 (netloc url)).map Prod.fst

/-- detect_platform (src/api/main.py lines 147-156): extract the netloc, scan
PLATFORM_PATTERNS in insertion order, return the first platform whose pattern
matches; `none` models the `raise ValueError` for unsupported platforms. -/
def detect_platform (url : String) : Option String :=
  detect_platform_with PLATFORM_PATTERNS url

/-- JSON-ish values appearing in the handlers' response dicts. -/
inductive JVal where
  | s (v : String)
  | null
  | arr (vs : List String)
deriving DecidableEq, Repr

/-- Python `str.lower()`: every character lower-cased. -/
def pyLower (t : String) : String :=
  String.mk (t.data.map Char.toLower)

/-- Python `str.capitalize()`: first character upper-cased, the rest lower-cased. -/
def pyCapitalize (t : String) : String :=
  match t.data with
  | [] => ""
  | c :: cs => String.mk (c.toUpper :: cs.map Char.toLower)

/-- Line 62: `content_type = "reel" if "reel" in url else "post" if "p/" in url else "story"`. -/
def instagram_content_type (url : String) : String :=
  if containsSubstr url "reel" then "reel"
  else if containsSubstr url "p/" then "post"
  else "story"

/-- Line 104: `content_type = "reel" if "reel" in url else "story" if "story" in url else "post"`. -/
def facebook_content_type (url : String) : String :=
  if containsSubstr url "reel" then "reel"
  else if containsSubstr url "story" then "story"
  else "post"

/-- Line 122: `content_type = "short" if "shorts" in url else "video"`. -/
def youtube_content_type (url : String) : String :=
  if containsSubstr url "shorts" then "short" else "video"

/-- instagram_handler (src/api/main.py lines 55-78): placeholder response dict,
field order as written in the source. -/
def instagram_handler (url format : String) : List (String × JVal) :=
  let content_type := instagram_content_type url
  [("status", JVal.s "success"),
   ("platform", JVal.s "Instagram"),
   ("media_type",
     JVal.s (if content_type = "reel" ∨ content_type = "story" then "video" else "image")),
   ("download_url",
     JVal.s ("https://api.example.com/downloads/instagram/" ++ content_type
       ++ "_processed." ++ format)),
   ("thumbnail", JVal.s "https://api.example.com/thumbnails/instagram_thumbnail.jpg"),
   ("title", JVal.s ("Instagram " ++ pyCapitalize content_type)),
   ("duration",
     if content_type = "reel" ∨ content_type = "story" then JVal.s "15s" else JVal.null)]

/-- tiktok_handler (src/api/main.py lines 80-97).  Note the extra `audio_url`
key, always present, null unless format is mp3. -/
def tiktok_handler (url format : String) : List (String × JVal) :=
  [("status", JVal.s "success"),
   ("platform", JVal.s "TikTok"),
   ("media_type", JVal.s "video"),
   ("download_url",
     JVal.s ("https://api.example.com/downloads/tiktok/video_nowatermark." ++ format)),
   ("thumbnail", JVal.s "https://api.example.com/thumbnails/tiktok_thumbnail.jpg"),
   ("title", JVal.s "TikTok Video"),
   ("duration", JVal.s "30s"),
   ("audio_url",
     if format = "mp3" then JVal.s "https://api.example.com/downloads/tiktok/audio.mp3"
     else JVal.null)]

/-- facebook_handler (src/api/main.py lines 99-115). -/
def facebook_handler (url format : String) : List (String × JVal) :=
  let content_type := facebook_content_type url
  [("status", JVal.s "success"),
   ("platform", JVal.s "Facebook"),
   ("media_type",
     JVal.s (if content_type = "reel" ∨ content_type = "story" then "video" else "image")),
   ("download_url",
     JVal.s ("https://api.example.com/downloads/facebook/" ++ content_type ++ "." ++ format)),
   ("thumbnail", JVal.s "https://api.example.com/thumbnails/facebook_thumbnail.jpg"),
   ("title", JVal.s ("Facebook " ++ pyCapitalize content_type)),
   ("duration",
     if content_type = "reel" ∨ content_type = "story" then JVal.s "60s" else JVal.null)]

/-- youtube_handler (src/api/main.py lines 117-137).  Note the extra
`available_formats` key. -/
def youtube_handler (url format : String) : List (String × JVal) :=
  let content_type := youtube_content_type url
  [("status", JVal.s "success"),
   ("platform", JVal.s "YouTube"),
   ("media_type", JVal.s "video"),
   ("download_url",
     JVal.s ("https://api.example.com/downloads/youtube/" ++ content_type ++ "." ++ format)),
   ("thumbnail", JVal.s "https://api.example.com/thumbnails/youtube_thumbnail.jpg"),
   ("title", JVal.s ("YouTube " ++ pyCapitalize content_type)),
   ("duration", if content_type = "short" then JVal.s "30s" else JVal.s "5m"),
   ("available_formats", JVal.arr ["144p", "240p", "360p", "480p", "720p", "1080p"])]

/-- Type of a platform handler: url and format to a response dict. -/
def Handler : Type := String → String → List (String × JVal)

/-- PLATFORM_HANDLERS (src/api/main.py lines 140-145). -/
def PLATFORM_HANDLERS : List (String × Handler) :=
  [("instagram", instagram_handler),
   ("tiktok", tiktok_handler),
   ("facebook", facebook_handler),
   ("youtube", youtube_handler)]

/-- `PLATFORM_HANDLERS.get(platform)` (src/api/main.py line 185). -/
def handlersGet (platform : String) : Option Handler :=
  (PLATFORM_HANDLERS.find? fun pr => pr.1 == platform).map Prod.snd

/-- An HTTPException raised inside the try body of download_media: status code
and detail string. -/
inductive HErr where
  | http (status : Nat) (detail : String)
deriving DecidableEq, Repr

/-- Outcome of the POST /api/download endpoint.  `httpError st e` models an
HTTPException with status `st` reaching the caller; the except-Exception clause
of the source builds its 500 detail by interpolating the caught exception, so we
record the wrapped exception `e` itself rather than Python string rendering. -/
inductive ApiResult where
  | ok (body : List (String × JVal))
  | httpError (status : Nat) (wrapped : HErr)
deriving DecidableEq, Repr

/-- The try-block body of download_media (src/api/main.py lines 164-194):
lower-case the format, reject formats outside mp4/mp3 with 400, detect the
platform (ValueError mapped to 400), look up the handler (501 when missing —
the source wraps the platform name in single quotes inside that detail),
otherwise run the handler. -/
def download_media_inner (url rawFormat : String) : Except HErr (List (String × JVal)) :=
  let format := pyLower rawFormat
  if ¬ (format = "mp4" ∨ format = "mp3") then
    Except.error (HErr.http 400 "Invalid format. Supported formats: mp4, mp3")
  else
    match detect_platform url with
    | none => Except.error (HErr.http 400 ("Unsupported platform for URL: " ++ url))
    | some platform =>
      match handlersGet platform with
      | none =>
        Except.error (HErr.http 501 ("Handler for platform " ++ platform ++ " not implemented"))
      | some h => Except.ok (h url format)

/-- download_media (src/api/main.py lines 158-201): the whole try body sits
inside `except Exception as e: raise HTTPException(status_code=500, ...)`.
Since fastapi's HTTPException derives from Exception, every HTTPException
raised in the body is caught there and re-raised wrapped with status 500. -/
def download_media (url rawFormat : String) : ApiResult :=
  match download_media_inner url rawFormat with
  | Except.ok body => ApiResult.ok body
  | Except.error e => ApiResult.httpError 500 e

/-- All keys of a response dict, in order. -/
def responseKeys (body : List (String × JVal)) : List String :=
  body.map Prod.fst

/-- Value of a field in a response dict (first binding of the key). -/
def lookupField (body : List (String × JVal)) (key : String) : Option JVal :=
  (body.find? fun pr => pr.1 == key).map Prod.snd

/-- Modelled from the spec: the rate limiter on POST /api/download is the
third-party slowapi decorator `limiter.limit("60/minute")` (src/api/main.py
lines 27-30 and 159), whose admission logic is not repository code.  The spec
describes a per-client token bucket with fixed capacity and refill rate; a
bucket holds the tokens remaining for one client. -/
structure Bucket where
  tokens : Nat
deriving DecidableEq, Repr

/-- Modelled from the spec: the per-client budget, 60 requests per minute. -/
def bucketCapacity : Nat := 60

/-- Admission decision for one request: admitted, or rejected with a
retry-after hint in seconds. -/
inductive Decision where
  | admitted
  | rejected (retryAfter : Nat)
deriving DecidableEq, Repr

/-- Modelled from the spec: one admission check against the token bucket.
With a token available the request is admitted and one token consumed;
with the bucket empty it is rejected, retry-after being the time until the
refill rate (one token per second at 60/minute) grants the next token. -/
def governorStep (b : Bucket) : Decision × Bucket :=
  if 0 < b.tokens then (Decision.admitted, ⟨b.tokens - 1⟩) else (Decision.rejected 1, b)

/-- Modelled from the spec: refill after `elapsedSeconds`, capped at capacity. -/
def governorRefill (b : Bucket) (elapsedSeconds : Nat) : Bucket :=
  ⟨min bucketCapacity (b.tokens + elapsedSeconds)⟩

/-- Modelled from the spec: `n` back-to-back requests from one client within
the refill window (no refill between them), returning the decisions in order. -/
def governorBurst : Nat → Bucket → List Decision
  | 0, _ => []
  | n + 1, b => (governorStep b).1 :: governorBurst n (governorStep b).2

/-- Helper: `find?` returns the same result on any permutation of a list whose
satisfying elements are unique as values. -/
theorem find?_eq_of_perm_of_unique {α : Type} (p : α → Bool) {l l2 : List α}
    (hperm : l.Perm l2)
    (huniq : ∀ a ∈ l2, ∀ b ∈ l2, p a = true → p b = true → a = b) :
    l.find? p = l2.find? p := by
  cases hfl : l.find? p with
  | none =>
    cases hfl2 : l2.find? p with
    | none => rfl
    | some b =>
      have hb := List.find?_some hfl2
      have hbm : b ∈ l := hperm.mem_iff.mpr (List.mem_of_find?_eq_some hfl2)
      have := List.find?_eq_none.mp hfl b hbm
      simp [hb] at this
  | some a =>
    have ha := List.find?_some hfl
    have ham : a ∈ l2 := hperm.mem_iff.mp (List.mem_of_find?_eq_some hfl)
    cases hfl2 : l2.find? p with
    | none =>
      have := List.find?_eq_none.mp hfl2 a ham
      simp [ha] at this
    | some b =>
      exact congrArg some
        (huniq a ham b (List.mem_of_find?_eq_some hfl2) ha (List.find?_some hfl2))

/-- C1 (amended): for every URL whose host matches exactly one platform entry of
PLATFORM_PATTERNS, detect_platform succeeds and returns that platform; in
particular classification depends only on the host matching, never on the path. -/
theorem detect_platform_unique_host_match (url : String) (pr : String × List String)
    (hmem : pr ∈ PLATFORM_PATTERNS)
    (hmatch : hostMatches pr.2 (netloc url) = true)
    (huniq : ∀ qr ∈ PLATFORM_PATTERNS, hostMatches qr.2 (netloc url) = true → qr = pr) :
    detect_platform url = some pr.1 := by
  have hsome : (PLATFORM_PATTERNS.find? fun q => hostMatches q.2 (netloc url)).isSome := by
    rw [List.find?_isSome]
    exact ⟨pr, hmem, hmatch⟩
  obtain ⟨qr, hq⟩ := Option.isSome_iff_exists.mp hsome
  have hq2 :=
    List.find?_some (p := fun q : String × List String => hostMatches q.2 (netloc url)) hq
  have hqp : qr = pr := huniq qr (List.mem_of_find?_eq_some hq) (by simpa using hq2)
  unfold detect_platform detect_platform_with
  rw [hq, hqp]
  rfl

/-- Witness for C1 at the TikTok URL of the spec scenario. -/
theorem detect_platform_unique_host_match_witness :
    detect_platform "https://www.tiktok.com/@user/video/123" = some "tiktok" :=
  detect_platform_unique_host_match _ ("tiktok", ["tiktok.com", "vm.tiktok.com"])
    (by decide) (by decide) (by decide)

/-- C1 counterexample: the host "instagram.com.tiktok.com" matches the tiktok
pattern, yet detect_platform does not return "tiktok" — it returns the first
matching entry, "instagram" — so the claim as stated fails for the matched
platform "tiktok". -/
theorem detect_platform_first_match_counterexample :
    ("tiktok", ["tiktok.com", "vm.tiktok.com"]) ∈ PLATFORM_PATTERNS ∧
    hostMatches ["tiktok.com", "vm.tiktok.com"]
      (netloc "https://instagram.com.tiktok.com/video/123") = true ∧
    detect_platform "https://instagram.com.tiktok.com/video/123" = some "instagram" ∧
    some "instagram" ≠ some "tiktok" := by
  refine ⟨by decide, by decide, by decide, by decide⟩

/-- C4 (amended): for every URL whose host matches at most one entry of
PLATFORM_PATTERNS, the detected platform is independent of the order in which
the table is iterated. -/
theorem detect_platform_order_irrelevant_of_unique (url : String)
    (table : List (String × List String)) (hperm : table.Perm PLATFORM_PATTERNS)
    (huniq : ∀ a ∈ PLATFORM_PATTERNS, ∀ b ∈ PLATFORM_PATTERNS,
      hostMatches a.2 (netloc url) = true → hostMatches b.2 (netloc url) = true → a = b) :
    detect_platform_with table url = detect_platform url := by
  unfold detect_platform detect_platform_with
  rw [find?_eq_of_perm_of_unique _ hperm huniq]

/-- Witness for C4: swapping the first two table entries does not change the
detected platform of the spec's TikTok URL. -/
theorem detect_platform_order_irrelevant_witness :
    detect_platform_with
      [("tiktok", ["tiktok.com", "vm.tiktok.com"]),
       ("instagram", ["instagram.com", "instagr.am"]),
       ("facebook", ["facebook.com", "fb.com", "fb.watch"]),
       ("youtube", ["youtube.com", "youtu.be"])]
      "https://www.tiktok.com/@user/video/123"
      = detect_platform "https://www.tiktok.com/@user/video/123" :=
  detect_platform_order_irrelevant_of_unique _ _
    (by unfold PLATFORM_PATTERNS; exact List.Perm.swap _ _ _) (by decide)

/-- C4 counterexample: the host "facebook.com.youtu.be" matches both the
facebook and the youtube patterns, so the four patterns are not mutually
exclusive, and on such a host the detected platform depends on the table
order. -/
theorem patterns_overlap_counterexample :
    ("facebook", ["facebook.com", "fb.com", "fb.watch"]) ∈ PLATFORM_PATTERNS ∧
    ("youtube", ["youtube.com", "youtu.be"]) ∈ PLATFORM_PATTERNS ∧
    hostMatches ["facebook.com", "fb.com", "fb.watch"] "facebook.com.youtu.be" = true ∧
    hostMatches ["youtube.com", "youtu.be"] "facebook.com.youtu.be" = true ∧
    detect_platform_with
      [("youtube", ["youtube.com", "youtu.be"]),
       ("facebook", ["facebook.com", "fb.com", "fb.watch"]),
       ("tiktok", ["tiktok.com", "vm.tiktok.com"]),
       ("instagram", ["instagram.com", "instagr.am"])]
      "https://facebook.com.youtu.be/video"
      ≠ detect_platform "https://facebook.com.youtu.be/video" := by
  refine ⟨by decide, by decide, by decide, by decide, by decide⟩

/-- C2 (code bug evaluation): the source raises HTTPException(400) for an
unsupported platform and for an invalid format, but the trailing
except-Exception clause catches those HTTPExceptions and re-raises them with
status 500, so the endpoint answers 500, not the 400 the spec states.  Both
spec scenarios evaluated: the unrecognized host and a format outside mp4/mp3. -/
theorem rejected_requests_return_500_not_400 :
    download_media "https://example.com/video" "mp4"
      = ApiResult.httpError 500
          (HErr.http 400 "Unsupported platform for URL: https://example.com/video") ∧
    download_media "https://www.tiktok.com/@user/video/123" "avi"
      = ApiResult.httpError 500
          (HErr.http 400 "Invalid format. Supported formats: mp4, mp3") := by
  refine ⟨by decide, by decide⟩

/-- C3 (amended): for every url and format, the Instagram and Facebook
responses carry exactly the keys status, platform, media_type, download_url,
thumbnail, title, duration; the TikTok response additionally carries audio_url
and the YouTube response additionally carries available_formats. -/
theorem handler_response_keys (url fmt : String) :
    responseKeys (instagram_handler url fmt)
      = ["status", "platform", "media_type", "download_url", "thumbnail", "title",
         "duration"] ∧
    responseKeys (facebook_handler url fmt)
      = ["status", "platform", "media_type", "download_url", "thumbnail", "title",
         "duration"] ∧
    responseKeys (tiktok_handler url fmt)
      = ["status", "platform", "media_type", "download_url", "thumbnail", "title",
         "duration", "audio_url"] ∧
    responseKeys (youtube_handler url fmt)
      = ["status", "platform", "media_type", "download_url", "thumbnail", "title",
         "duration", "available_formats"] :=
  ⟨rfl, rfl, rfl, rfl⟩

/-- C3 counterexample: the TikTok response contains the key audio_url, which is
outside the field set the claim allows. -/
theorem tiktok_extra_field_counterexample :
    "audio_url" ∈ responseKeys (tiktok_handler "https://www.tiktok.com/@user/video/123" "mp4") ∧
    "audio_url" ∉ ["status", "platform", "media_type", "download_url", "thumbnail", "title",
      "duration"] := by
  refine ⟨by decide, by decide⟩

/-- C5 (amended): an Instagram URL containing neither "reel" nor "p/" gets the
content kind "story" (the final else of line 62), and the handler still
succeeds with a status-success body rather than failing. -/
theorem instagram_unknown_path_defaults_to_story (url fmt : String)
    (hreel : containsSubstr url "reel" = false)
    (hpost : containsSubstr url "p/" = false) :
    instagram_content_type url = "story" ∧
    lookupField (instagram_handler url fmt) "status" = some (JVal.s "success") :=
  ⟨by simp [instagram_content_type, hreel, hpost], rfl⟩

/-- Witness for C5 at a concrete TV-path URL that contains neither marker. -/
theorem instagram_unknown_path_defaults_to_story_witness :
    instagram_content_type "https://instagram.com/tv/abc" = "story" ∧
    lookupField (instagram_handler "https://instagram.com/tv/abc" "mp4") "status"
      = some (JVal.s "success") :=
  instagram_unknown_path_defaults_to_story _ _ (by decide) (by decide)

/-- C5 counterexample: for the URL "https://instagram.com/tv/abc", which has an
unrecognized path shape, the inferred content kind is "story", not the "post"
the claim states. -/
theorem instagram_default_is_story_counterexample :
    containsSubstr "https://instagram.com/tv/abc" "reel" = false ∧
    containsSubstr "https://instagram.com/tv/abc" "p/" = false ∧
    instagram_content_type "https://instagram.com/tv/abc" = "story" ∧
    ("story" : String) ≠ "post" := by
  refine ⟨by decide, by decide, by decide, by decide⟩

/-- C6: the resolution pipeline is deterministic — equal (url, format) inputs
give equal detected platforms and equal endpoint results; the embedding is a
pure function of its inputs, exactly as the handlers read no state besides
their arguments. -/
theorem resolution_pipeline_deterministic (u1 u2 f1 f2 : String)
    (hu : u1 = u2) (hf : f1 = f2) :
    detect_platform u1 = detect_platform u2 ∧ download_media u1 f1 = download_media u2 f2 := by
  subst hu
  subst hf
  exact ⟨rfl, rfl⟩

/-- Witness for C6 at the spec's YouTube short-link URL. -/
theorem resolution_pipeline_deterministic_witness :
    detect_platform "https://youtu.be/abc" = detect_platform "https://youtu.be/abc" ∧
    download_media "https://youtu.be/abc" "mp4" = download_media "https://youtu.be/abc" "mp4" :=
  resolution_pipeline_deterministic _ _ _ _ rfl rfl

/-- C7: the spec's TikTok end-to-end scenario — the URL classifies as tiktok,
the endpoint succeeds with the TikTok handler body, and that body carries
platform TikTok, media_type video, and a concrete download URL. -/
theorem tiktok_end_to_end_success :
    detect_platform "https://www.tiktok.com/@user/video/123" = some "tiktok" ∧
    download_media "https://www.tiktok.com/@user/video/123" "mp4"
      = ApiResult.ok (tiktok_handler "https://www.tiktok.com/@user/video/123" "mp4") ∧
    lookupField (tiktok_handler "https://www.tiktok.com/@user/video/123" "mp4") "platform"
      = some (JVal.s "TikTok") ∧
    lookupField (tiktok_handler "https://www.tiktok.com/@user/video/123" "mp4") "media_type"
      = some (JVal.s "video") ∧
    lookupField (tiktok_handler "https://www.tiktok.com/@user/video/123" "mp4") "download_url"
      = some (JVal.s "https://api.example.com/downloads/tiktok/video_nowatermark.mp4") := by
  refine ⟨by decide, by decide, by decide, by decide, by decide⟩

/-- Helper: a burst against a bucket holding `k` tokens admits the first
`min n k` requests and rejects the rest with a one-second retry-after. -/
theorem governorBurst_replicate (n : Nat) : ∀ k : Nat,
    governorBurst n ⟨k⟩
      = List.replicate (min n k) Decision.admitted
        ++ List.replicate (n - k) (Decision.rejected 1) := by
  induction n with
  | zero => intro k; simp [governorBurst]
  | succ n ih =>
    intro k
    by_cases hk : 0 < k
    · have hstep : governorStep ⟨k⟩ = (Decision.admitted, ⟨k - 1⟩) := by
        simp [governorStep, hk]
      have h1 : min (n + 1) k = min n (k - 1) + 1 := by omega
      have h2 : (n + 1) - k = n - (k - 1) := by omega
      simp only [governorBurst, hstep, ih (k - 1), h1, h2, List.replicate_succ,
        List.cons_append]
    · have hk0 : k = 0 := by omega
      subst hk0
      have hstep : governorStep ⟨0⟩ = (Decision.rejected 1, ⟨0⟩) := by
        simp [governorStep]
      simp [governorBurst, hstep, ih 0, List.replicate_succ]

/-- C8: a client firing `n > 60` requests inside the refill window against a
full bucket has exactly the first 60 admitted and the remaining `n - 60`
rejected with the positive one-second retry-after hint. -/
theorem governor_excess_burst_rejected (n : Nat) (h : bucketCapacity < n) :
    governorBurst n ⟨bucketCapacity⟩
      = List.replicate bucketCapacity Decision.admitted
        ++ List.replicate (n - bucketCapacity) (Decision.rejected 1) ∧
    0 < n - bucketCapacity := by
  refine ⟨?_, by omega⟩
  rw [governorBurst_replicate n bucketCapacity, min_eq_right (Nat.le_of_lt h)]

/-- Witness for C8 with a burst of 61 requests. -/
theorem governor_excess_burst_rejected_witness :
    bucketCapacity < 61 ∧
    (governorBurst 61 ⟨bucketCapacity⟩
      = List.replicate bucketCapacity Decision.admitted
        ++ List.replicate (61 - bucketCapacity) (Decision.rejected 1) ∧
    0 < 61 - bucketCapacity) :=
  ⟨by decide, governor_excess_burst_rejected 61 (by decide)⟩

/-- C9: every request outcome of the endpoint is either a success body or an
HTTPException with status 500 — the except-Exception clause wraps every failure
raised in the body (including the 400s and the 501) with status 500, so no
request that enters the handler body receives a 400 or 501 response. -/
theorem download_media_errors_always_500 (url fmt : String) :
    (∃ body, download_media url fmt = ApiResult.ok body) ∨
    (∃ e, download_media url fmt = ApiResult.httpError 500 e) := by
  cases hx : download_media_inner url fmt with
  | ok body =>
    exact Or.inl ⟨body, by unfold download_media; rw [hx]⟩
  | error e =>
    exact Or.inr ⟨e, by unfold download_media; rw [hx]⟩

/-- C10: a successfully detected platform always has a handler in
PLATFORM_HANDLERS, and the 501 "handler not implemented" branch of
download_media is unreachable. -/
theorem detected_platform_always_has_handler (url p fmt d : String)
    (h : detect_platform url = some p) :
    (handlersGet p).isSome = true ∧
    download_media_inner url fmt ≠ Except.error (HErr.http 501 d) := by
  have hsome : (handlersGet p).isSome = true := by
    unfold detect_platform detect_platform_with at h
    obtain ⟨pr, hfind, hp⟩ := Option.map_eq_some'.mp h
    have hmem := List.mem_of_find?_eq_some hfind
    rw [← hp]
    fin_cases hmem <;> decide
  refine ⟨hsome, ?_⟩
  intro hcontra
  simp only [download_media_inner] at hcontra
  split at hcontra
  · injection hcontra with heq
    injection heq with hst hdet
    exact absurd hst (by decide)
  · rw [h] at hcontra
    obtain ⟨hdl, hh⟩ := Option.isSome_iff_exists.mp hsome
    simp only [hh] at hcontra
    exact Except.noConfusion hcontra

/-- Witness for C10 at a YouTube URL. -/
theorem detected_platform_always_has_handler_witness :
    (handlersGet "youtube").isSome = true ∧
    download_media_inner "https://youtube.com/watch" "mp4"
      ≠ Except.error (HErr.http 501 "Handler for platform youtube not implemented") :=
  detected_platform_always_has_handler _ _ _ _ (by decide)

end SMD
